import Mathlib

/-!
Verification development for the edalize excerpt consisting of
`edalize/radiant.py`, `edalize/verilator.py` and `edalize/utils.py`.

The Python code is shallowly embedded: generated files become lists of
lines (one list entry per text line, every `f.write` in the source ends
its chunks with a newline or is joined accordingly), logger calls become
returned warning lists, `raise` becomes an error component, and
subprocess invocations become a returned list of `(tool, args)` pairs.
Python dictionaries that are only iterated in insertion order become
association lists.
-/

/-- A Python value as it may appear in `generic`/`vlogparam`/`vlogdefine`/
`plusarg`/`cmdlinearg` option mappings. -/
inductive Value where
  | int : Int → Value
  | bool : Bool → Value
  | str : String → Value
deriving DecidableEq

/-- Python `str()` of a `Value` (used where the source formats a value
with `"{}".format(v)` directly). -/
def pyStrValue : Value → String
  | Value.int n => toString n
  | Value.bool b => if b then "True" else "False"
  | Value.str s => s

/-- Modelled from the spec: the base toolchain class helper
`_param_value_str` (it lives in `edalize/edatool.py`, which is not part
of this excerpt).  Per the spec's value-stringification rule, booleans
and numbers pass through as bare tokens and strings are wrapped in the
tool-specific quote character supplied by the backend. -/
def param_value_str (v : Value) (str_quote_style : String) : String :=
  match v with
  | Value.int n => toString n
  | Value.bool b => if b then "True" else "False"
  | Value.str s => str_quote_style ++ (s ++ str_quote_style)

/-- A source file as delivered by the fileset provider.  An absent
logical name is the empty string (Python truthiness of
`f.logical_name`). -/
structure SourceFile where
  name : String
  file_type : String
  logical_name : String
deriving DecidableEq

/-- Modelled from the spec: `get_file_type` (imported by `radiant.py`
from a part of `edalize/utils.py` not present in this excerpt) maps a
source file to its declared type; classification is a pure function of
the declared file type. -/
def get_file_type (f : SourceFile) : String :=
  f.file_type

/-- Python `s.startswith(p)`. -/
def pyStartswith (s p : String) : Bool :=
  p.data.isPrefixOf s.data

/-- Python `s.lower()` (ASCII lowering, which is all the source needs). -/
def pyLower (s : String) : String :=
  String.mk (s.data.map Char.toLower)

/-- Python `s.replace(".", "_")` for the single-character pattern used in
`radiant.py`: every dot is replaced by an underscore. -/
def dotToUnderscore (s : String) : String :=
  String.mk (s.data.map (fun c => if c = '.' then '_' else c))

/-- Python `str()` of an optional string option
(`self.tool_options.get("exe")` yields `None` when absent and
`str(None)` is `"None"`). -/
def pyStrOfOptStr : Option String → String
  | none => "None"
  | some s => s

/-- Python `str()` of an optional boolean option
(`str(None) = "None"`, `str(True) = "True"`, `str(False) = "False"`). -/
def pyStrOfOptBool : Option Bool → String
  | none => "None"
  | some true => "True"
  | some false => "False"

/-! ## `edalize/utils.py`: the `EdaCommands` build-file writer -/

/-- `EdaCommands.Command`: one build step. -/
structure EdaCommand where
  command : List String
  targets : List String
  depends : List String
  order_only_deps : List String
deriving DecidableEq

/-- `EdaCommands`: the ordered build-step list plus the designated default
target.  `default_target = none` models the attribute never having been
set (`set_default_target` was never called); `__init__` does not
initialise it. -/
structure EdaCommands where
  commands : List EdaCommand
  default_target : Option String
deriving DecidableEq

/-- The lines `EdaCommands.write` produces for one command: a blank
separator line, the rule line `targets: depends [| order-only deps]`,
and, if the command is non-empty, the indented launcher line. -/
def commandLines (c : EdaCommand) : List String :=
  ["",
   String.intercalate " " c.targets ++ ":"
     ++ String.join (c.depends.map (fun d => " " ++ d))
     ++ (if c.order_only_deps = [] then ""
         else " |" ++ String.join (c.order_only_deps.map (fun d => " " ++ d)))]
  ++ (if c.command = [] then []
      else ["\t$(EDALIZE_LAUNCHER) " ++ String.intercalate " " c.command])

/-- `EdaCommands.write`, as the list of lines of the produced build
file.  In the source the header is written first and then
`self.default_target` is consulted: an unset attribute raises
`AttributeError`, a falsy (empty) one raises the `RuntimeError`; either
way `write` raises before emitting the `all:` rule. -/
def EdaCommands.write (e : EdaCommands) : Except String (List String) :=
  match e.default_target with
  | none =>
      Except.error
        "AttributeError: \x27EdaCommands\x27 object has no attribute \x27default_target\x27"
  | some t =>
      if t = "" then
        Except.error "Internal Edalize error. Missing default target"
      else
        Except.ok (["#Auto generated by Edalize", "", "all: " ++ t]
                   ++ e.commands.flatMap commandLines)

/-- Re-parse a written build file: the target named on its `all:` line
(the text after the first line that starts with `"all: "`). -/
def parseAllTarget (lines : List String) : Option String :=
  lines.findSome? (fun l =>
    if l.data.take 5 = "all: ".data then some (String.mk (l.data.drop 5)) else none)

/-! ## `edalize/radiant.py`: the Radiant project-script backend -/

/-- `Radiant.src_file_filter`: the directive line for one source file
(first component, `""` when the file contributes nothing) together with
the warnings logged while classifying it (second component). -/
def Radiant.src_file_filter (f : SourceFile) : String × List String :=
  let work_source := " -work " ++ (if f.logical_name = "" then "work" else f.logical_name)
  let ft := get_file_type f
  if ft ∈ (["verilogSource", "systemVerilogSource", "vhdlSource", "PDC", "SDC"] : List String) then
    ("prj_add_source " ++ (f.name ++ work_source), [])
  else if ft = "tclSource" then
    ("source " ++ f.name, [])
  else if ft ∈ (["user", "LPF"] : List String) then
    ("", [])
  else
    ("", [f.name ++ (" has unknown file type \x27" ++ (f.file_type ++ "\x27"))])

/-- The PDC scan loop at the top of `Radiant.configure_main`: it tracks
the first PDC file seen and logs a warning for every further one.  (The
tracked name is dead after the loop: nothing in `configure_main` reads
it back.) -/
def pdcScan : Option String → List SourceFile → List String
  | _, [] => []
  | acc, f :: rest =>
      if f.file_type = "PDC" then
        match acc with
        | some _ =>
            "Multiple PDC files detected. Only the first one will be used"
              :: pdcScan acc rest
        | none => pdcScan (some f.name) rest
      else pdcScan acc rest

/-- The `include path` directive line of the Radiant project script. -/
def radiantIncdirLine (incdirs : List String) : String :=
  "prj_set_impl_opt \x7binclude path\x7d \x7b" ++ (String.intercalate " " incdirs ++ "\x7d")

/-- The `HDL_PARAM` directive line built from the `generic` mapping
(values formatted with plain `str()`). -/
def radiantGenericLine (generic : List (String × Value)) : String :=
  "prj_set_impl_opt HDL_PARAM \x7b"
    ++ (String.intercalate ";" (generic.map (fun kv => kv.1 ++ "=" ++ pyStrValue kv.2))
        ++ "\x7d")

/-- The `HDL_PARAM` directive line built from the `vlogparam` mapping
(values formatted with `_param_value_str(v, quote)` using a double
quote). -/
def radiantVlogparamLine (vlogparam : List (String × Value)) : String :=
  "prj_set_impl_opt HDL_PARAM \x7b"
    ++ (String.intercalate ";"
          (vlogparam.map (fun kv => kv.1 ++ "=" ++ param_value_str kv.2 "\""))
        ++ "\x7d")

/-- The `VERILOG_DIRECTIVES` directive line built from the `vlogdefine`
mapping. -/
def radiantVlogdefineLine (vlogdefine : List (String × Value)) : String :=
  "prj_set_impl_opt VERILOG_DIRECTIVES \x7b"
    ++ (String.intercalate ";" (vlogdefine.map (fun kv => kv.1 ++ "=" ++ pyStrValue kv.2))
        ++ "\x7d")

/-- The outcome of `Radiant.configure_main`: the two generated TCL
scripts (as line lists) and the warnings logged on the way. -/
structure RadiantResult where
  projectLines : List String
  runLines : List String
  warnings : List String
deriving DecidableEq

/-- `Radiant.configure_main`.  `name` is `self.name`, `part` is
`self.tool_options["part"]`; `generic`, `vlogparam` and `vlogdefine` are
the option mappings inherited from the base class, and a mapping is
emitted only when non-empty (Python dictionary truthiness). -/
def Radiant.configure_main (name part toplevel : String) (files : List SourceFile)
    (incdirs : List String) (generic vlogparam vlogdefine : List (String × Value)) :
    RadiantResult :=
  let prj_name := dotToUnderscore name
  let projectLines :=
    ["#Generated by Edalize",
     "prj_create -name " ++ (prj_name ++ (" -impl \"impl\" -dev " ++ part)),
     "prj_set_impl_opt top " ++ toplevel]
    ++ (if incdirs = [] then [] else [radiantIncdirLine incdirs])
    ++ (if generic = [] then [] else [radiantGenericLine generic])
    ++ (if vlogparam = [] then [] else [radiantVlogparamLine vlogparam])
    ++ (if vlogdefine = [] then [] else [radiantVlogdefineLine vlogdefine])
    ++ files.filterMap (fun f =>
         if (Radiant.src_file_filter f).1 = "" then none
         else some (Radiant.src_file_filter f).1)
    ++ ["prj_save", "prj_close"]
  let runLines :=
    ["#Generated by Edalize",
     "prj_open " ++ (prj_name ++ ".rdf"),
     "prj_run Synthesis -impl impl -forceOne",
     "prj_run Map -impl impl",
     "prj_run PAR -impl impl",
     "prj_run Export -impl impl -task Bitgen",
     "prj_save",
     "prj_close"]
  let warnings :=
    pdcScan none files ++ files.flatMap (fun f => (Radiant.src_file_filter f).2)
  ⟨projectLines, runLines, warnings⟩

/-! ## `edalize/verilator.py`: the Verilator simulator backend -/

/-- `Verilator.modes`. -/
def Verilator.modes : List String :=
  ["binary", "cc", "dpi-hdr-only", "lint-only", "none", "preprocess-only", "sc", "xml-only"]

/-- The `tool_options` dictionary of the Verilator backend, one field
per key the source reads; `none` models an absent key. -/
structure VerilatorOpts where
  mode : Option String
  exe : Option String
  libs : Option (List String)
  verilator_options : Option (List String)
  make_options : Option (List String)
  run_options : Option (List String)
  gen_xml : Option Bool
  gen_dpi_hdr : Option Bool
  gen_preprocess : Option Bool
  cliParser : Option String
deriving DecidableEq

/-- `self.tool_options["mode"] = m`: the in-place dictionary update,
modelled by state passing. -/
def setMode (o : VerilatorOpts) (m : String) : VerilatorOpts :=
  ⟨some m, o.exe, o.libs, o.verilator_options, o.make_options, o.run_options,
   o.gen_xml, o.gen_dpi_hdr, o.gen_preprocess, o.cliParser⟩

/-- A `VerilatorOpts` with every key absent. -/
def defaultVOpts : VerilatorOpts :=
  ⟨none, none, none, none, none, none, none, none, none, none⟩

/-- The file-partition loop of `Verilator._write_config_files`, in
source order: `(vlt_files, vlog_files, opt_c_files)`.  Types matching no
branch (including the explicit `user` pass) contribute nothing, and the
loop logs nothing. -/
def partitionFiles : List SourceFile → List String × List String × List String
  | [] => ([], [], [])
  | f :: rest =>
      let r := partitionFiles rest
      if pyStartswith f.file_type "systemVerilogSource"
          || pyStartswith f.file_type "verilogSource" then
        (r.1, f.name :: r.2.1, r.2.2)
      else if f.file_type ∈ (["cppSource", "systemCSource", "cSource"] : List String) then
        (r.1, r.2.1, f.name :: r.2.2)
      else if f.file_type = "vlt" then
        (f.name :: r.1, r.2.1, r.2.2)
      else
        r

/-- The lines of the `.vc` command file for a (legal, already defaulted)
mode `m`.  An empty `"\n".join(...)` followed by `f.write("\n")`
contributes one empty line, hence the `[""]` branches. -/
def vcLines (m : String) (exe : Option String) (libs : Option (List String))
    (files : List SourceFile) (incdirs : List String) (toplevel : String)
    (vlogparam vlogdefine : List (String × Value)) : List String :=
  ["--Mdir ."]
  ++ (if m ∈ (["cc", "sc"] : List String) then ["--" ++ m] else [])
  ++ (match libs with
      | none => []
      | some ls => ls.map (fun lib => "-LDFLAGS " ++ lib))
  ++ incdirs.flatMap (fun d => ["+incdir+" ++ d, "-CFLAGS -I" ++ d])
  ++ (if (partitionFiles files).1 = [] then [] else (partitionFiles files).1)
  ++ (if (partitionFiles files).2.1 = [] then [""] else (partitionFiles files).2.1)
  ++ ["--top-module " ++ toplevel]
  ++ (if pyLower (pyStrOfOptStr exe) = "false" then [] else ["--exe"])
  ++ (if (partitionFiles files).2.2 = [] then [""] else (partitionFiles files).2.2)
  ++ vlogparam.map (fun kv => "-G" ++ (kv.1 ++ "=" ++ param_value_str kv.2 "\\\""))
  ++ vlogdefine.map (fun kv => "-D" ++ (kv.1 ++ "=" ++ param_value_str kv.2 ""))

/-- The static `MAKEFILE_TEMPLATE`, line by line. -/
def makefileLines : List String :=
  ["#Auto generated by Edalize",
   "",
   "include config.mk",
   "",
   "#Assume a local installation if VERILATOR_ROOT is set",
   "ifeq ($(VERILATOR_ROOT),)",
   "VERILATOR ?= verilator",
   "else",
   "VERILATOR ?= $(VERILATOR_ROOT)/bin/verilator",
   "endif",
   "",
   "V$(TOP_MODULE): V$(TOP_MODULE).mk",
   "\t$(MAKE) $(MAKE_OPTIONS) -f $<",
   "V$(TOP_MODULE).mk:",
   "\t$(EDALIZE_LAUNCHER) $(VERILATOR) -f $(VC_FILE) $(VERILATOR_OPTIONS)",
   "",
   ".PHONY: binary dpi-hdr-only lint-only preprocess-only xml-only",
   "binary:",
   "\t$(EDALIZE_LAUNCHER) $(VERILATOR) --binary -f $(VC_FILE) $(VERILATOR_OPTIONS)",
   "dpi-hdr-only:",
   "\t$(EDALIZE_LAUNCHER) $(VERILATOR) --dpi-hdr-only -f $(VC_FILE) $(VERILATOR_OPTIONS)",
   "lint-only:",
   "\t$(EDALIZE_LAUNCHER) $(VERILATOR) --lint-only -f $(VC_FILE) $(VERILATOR_OPTIONS)",
   "preprocess-only V$(TOP_MODULE).i:",
   "\t$(EDALIZE_LAUNCHER) $(VERILATOR) -E -f $(VC_FILE) $(VERILATOR_OPTIONS) > V$(TOP_MODULE).i",
   "xml-only V$(TOP_MODULE).xml:",
   "\t$(EDALIZE_LAUNCHER) $(VERILATOR) --xml-only -f $(VC_FILE) $(VERILATOR_OPTIONS)"]

/-- The `CONFIG_MK_TEMPLATE`, formatted. -/
def configMkLines (top_module vc_file verilator_options make_options : String) :
    List String :=
  ["#Auto generated by Edalize",
   "",
   "TOP_MODULE        := " ++ top_module,
   "VC_FILE           := " ++ vc_file,
   "VERILATOR_OPTIONS := " ++ verilator_options,
   "MAKE_OPTIONS      := " ++ make_options]

/-- The message of the `RuntimeError` raised for an illegal mode. -/
def illegalModeMsg (m : String) : String :=
  "Illegal verilator mode "
    ++ (m ++ (". Allowed values are " ++ String.intercalate ", " Verilator.modes))

/-- The outcome of `Verilator._write_config_files`: the files it wrote
(in write order, with their lines), the raised error if any, the updated
`tool_options`, and the warnings it logged (it logs none). -/
structure VConfigResult where
  files : List (String × List String)
  error : Option String
  opts : VerilatorOpts
  warnings : List String
deriving DecidableEq

/-- `Verilator._write_config_files`.  The `.vc` file is opened and the
`--Mdir` line written before the mode default and the mode validation,
so on an illegal mode the `.vc` file is already on disk with that single
line while `Makefile` and `config.mk` are never written. -/
def Verilator.write_config_files (name : String) (o : VerilatorOpts)
    (files : List SourceFile) (incdirs : List String) (toplevel : String)
    (vlogparam vlogdefine : List (String × Value)) : VConfigResult :=
  let vcName := name ++ ".vc"
  let m := match o.mode with | none => "cc" | some mm => mm
  let o2 := setMode o m
  if m ∈ Verilator.modes then
    ⟨[(vcName, vcLines m o.exe o.libs files incdirs toplevel vlogparam vlogdefine),
      ("Makefile", makefileLines),
      ("config.mk",
        configMkLines toplevel vcName
          (match o.verilator_options with
           | none => ""
           | some ls => String.intercalate " " ls)
          (match o.make_options with
           | none => ""
           | some ls => String.intercalate " " ls))],
     none, o2, []⟩
  else
    ⟨[(vcName, ["--Mdir ."])], some (illegalModeMsg m), o2, []⟩

/-- The lines of the first file written by
`Verilator._write_config_files` (the `.vc` command file). -/
def vcContent (r : VConfigResult) : List String :=
  match r.files with
  | [] => []
  | (_, ls) :: _ => ls

/-- The outcome of `Verilator.build_main`: spawned processes (tool and
argument list, in order), raised error if any, updated `tool_options`. -/
structure BuildResult where
  procs : List (String × List String)
  error : Option String
  opts : VerilatorOpts
deriving DecidableEq

/-- `Verilator.build_main`. -/
def Verilator.build_main (o : VerilatorOpts) : BuildResult :=
  let m := match o.mode with | none => "cc" | some mm => mm
  let o2 := setMode o m
  if m ∈ Verilator.modes then
    let args :=
      if m ∈ (["binary", "dpi-hdr-only", "lint-only", "preprocess-only", "xml-only"] :
          List String) then [m] else []
    let procs :=
      (if m = "none" then [] else [("make", args)])
      ++ (if pyLower (pyStrOfOptBool o.gen_xml) = "true"
          then [("make", ["xml-only"])] else [])
      ++ (if pyLower (pyStrOfOptBool o.gen_dpi_hdr) = "true"
          then [("make", ["dpi-hdr-only"])] else [])
      ++ (if pyLower (pyStrOfOptBool o.gen_preprocess) = "true"
          then [("make", ["preprocess-only"])] else [])
    ⟨procs, none, o2⟩
  else
    ⟨[], some (illegalModeMsg m), o2⟩

/-- The deprecation warning of `check_managed_parser`. -/
def deprecationMsg : String :=
  "The cli_parser argument is deprecated. Use run_options to pass raw arguments to verilated models"

/-- The outcome of `Verilator.run_main`: spawned processes, the
assembled runtime argument list, updated `tool_options`, logged
warnings. -/
structure RunResult where
  procs : List (String × List String)
  args : List String
  opts : VerilatorOpts
  warnings : List String
deriving DecidableEq

/-- `Verilator.run_main`.  The argument assembly mirrors the two `+=`
loops followed by the `run_options` passthrough; the mode is then
defaulted and the four non-executable modes return without spawning
anything. -/
def Verilator.run_main (o : VerilatorOpts) (toplevel : String)
    (plusarg cmdlinearg : List (String × Value)) : RunResult :=
  let warnings :=
    if o.cliParser = none ∨ o.cliParser = some "managed" then [] else [deprecationMsg]
  let args1 :=
    plusarg.foldl (fun acc kv => acc ++ ["+" ++ (kv.1 ++ "=" ++ param_value_str kv.2 "")]) []
  let args2 :=
    cmdlinearg.foldl
      (fun acc kv => acc ++ ["--" ++ (kv.1 ++ "=" ++ param_value_str kv.2 "")]) args1
  let args := args2 ++ (match o.run_options with | none => [] | some ls => ls)
  let m := match o.mode with | none => "cc" | some mm => mm
  let o2 := setMode o m
  if m ∈ (["dpi-hdr-only", "lint-only", "preprocess-only", "xml-only"] : List String) then
    ⟨[], args, o2, warnings⟩
  else
    ⟨[("./V" ++ toplevel, args)], args, o2, warnings⟩

/-- The concrete option set of the C7 counterexample: mode `lint-only`
with `gen-xml` set to `True`. -/
def lintXmlOpts : VerilatorOpts :=
  ⟨some "lint-only", none, none, none, none, none, some true, none, none, none⟩

/-- The option set of the C2 counterexample: an illegal mode string. -/
def fooModeOpts : VerilatorOpts :=
  ⟨some "foo", none, none, none, none, none, none, none, none, none⟩

/-- The option set of the C7 witness: mode `lint-only`, everything else
absent. -/
def lintOnlyOpts : VerilatorOpts :=
  ⟨some "lint-only", none, none, none, none, none, none, none, none, none⟩

/-- The option set of the C6 witness for the suppressed-`--exe` case. -/
def exeFalseOpts : VerilatorOpts :=
  ⟨none, some "False", none, none, none, none, none, none, none, none⟩

/-- The prefix every `HDL_PARAM` directive line of the Radiant project
script starts with. -/
def hdlParamPfx : String := "prj_set_impl_opt HDL_PARAM \x7b"

/-- The prefix every `VERILOG_DIRECTIVES` directive line of the Radiant
project script starts with. -/
def verilogDirectivesPfx : String := "prj_set_impl_opt VERILOG_DIRECTIVES \x7b"

/-! ## Helper lemmas -/

/-- A string with the concrete prefix `c` differs from `b` whenever the
character lists differ at some index inside `c`. -/
theorem ne_append_of_data (c s b : String) (i : Nat) (hic : i < c.data.length)
    (h : c.data[i]? ≠ b.data[i]?) : c ++ s ≠ b := by
  intro he
  have hd : c.data ++ s.data = b.data := by rw [← String.data_append, he]
  apply h
  rw [← hd, List.getElem?_append_left hic]

/-- `pyStartswith` is refuted by a single differing character inside both
the candidate prefix and the concrete head of the string. -/
theorem pyStartswith_append_false (p c s : String) (i : Nat)
    (hip : i < p.data.length) (hic : i < c.data.length)
    (h : p.data[i]? ≠ c.data[i]?) : pyStartswith (c ++ s) p = false := by
  unfold pyStartswith
  rw [String.data_append, Bool.eq_false_iff]
  intro htrue
  obtain ⟨t, ht⟩ := List.isPrefixOf_iff_prefix.mp htrue
  apply h
  have h1 : (p.data ++ t)[i]? = p.data[i]? := List.getElem?_append_left hip
  rw [← h1, ht, List.getElem?_append_left hic]

/-- `pyStartswith` holds when the candidate prefix is a prefix of the
concrete head of the string. -/
theorem pyStartswith_append_true (p c s : String)
    (h : p.data.isPrefixOf c.data = true) : pyStartswith (c ++ s) p = true := by
  unfold pyStartswith
  rw [String.data_append]
  exact List.isPrefixOf_iff_prefix.mpr
    ((List.isPrefixOf_iff_prefix.mp h).trans (List.prefix_append c.data s.data))

/-- Python's `acc += [item]` loop over a list is `acc ++ map`. -/
theorem foldl_append_map {α β : Type} (f : α → β) (l : List α) (acc : List β) :
    l.foldl (fun a x => a ++ [f x]) acc = acc ++ l.map f := by
  induction l generalizing acc with
  | nil => simp
  | cons x xs ih => simp [ih]

/-- Every name in any of the three `partitionFiles` buckets is the name
of one of the input files. -/
theorem partition_names_sub (files : List SourceFile) :
    (partitionFiles files).1 ⊆ files.map (fun f => f.name)
    ∧ (partitionFiles files).2.1 ⊆ files.map (fun f => f.name)
    ∧ (partitionFiles files).2.2 ⊆ files.map (fun f => f.name) := by
  induction files with
  | nil => simp [partitionFiles]
  | cons f rest ih =>
      obtain ⟨h1, h2, h3⟩ := ih
      have hsub : ∀ x ∈ rest.map (fun g => g.name),
          x ∈ (f :: rest).map (fun g => g.name) := by
        intro x hx
        simp only [List.map_cons]
        exact List.mem_cons_of_mem _ hx
      simp only [partitionFiles]
      split
      · refine ⟨fun x hx => hsub x (h1 hx), fun x hx => ?_, fun x hx => hsub x (h3 hx)⟩
        rcases List.mem_cons.mp hx with rfl | hx
        · simp
        · exact hsub x (h2 hx)
      · split
        · refine ⟨fun x hx => hsub x (h1 hx), fun x hx => hsub x (h2 hx), fun x hx => ?_⟩
          rcases List.mem_cons.mp hx with rfl | hx
          · simp
          · exact hsub x (h3 hx)
        · split
          · refine ⟨fun x hx => ?_, fun x hx => hsub x (h2 hx), fun x hx => hsub x (h3 hx)⟩
            rcases List.mem_cons.mp hx with rfl | hx
            · simp
            · exact hsub x (h1 hx)
          · exact ⟨fun x hx => hsub x (h1 hx), fun x hx => hsub x (h2 hx),
              fun x hx => hsub x (h3 hx)⟩

/-- The non-empty outputs of `Radiant.src_file_filter` all start with
`prj_add_source ` or `source `. -/
theorem src_file_filter_shape (f : SourceFile) :
    (Radiant.src_file_filter f).1 = ""
    ∨ (∃ r, (Radiant.src_file_filter f).1 = "prj_add_source " ++ r)
    ∨ (∃ r, (Radiant.src_file_filter f).1 = "source " ++ r) := by
  simp only [Radiant.src_file_filter]
  split
  · exact Or.inr (Or.inl ⟨_, rfl⟩)
  · split
    · exact Or.inr (Or.inr ⟨_, rfl⟩)
    · split
      · exact Or.inl rfl
      · exact Or.inl rfl

/-- Exhaustive description of the lines the `.vc` file can contain. -/
theorem mem_vcLines (x m : String) (exe : Option String) (libs : Option (List String))
    (files : List SourceFile) (incdirs : List String) (toplevel : String)
    (vp vd : List (String × Value))
    (hx : x ∈ vcLines m exe libs files incdirs toplevel vp vd) :
    x = "--Mdir ."
    ∨ (m ∈ (["cc", "sc"] : List String) ∧ x = "--" ++ m)
    ∨ (∃ lib, x = "-LDFLAGS " ++ lib)
    ∨ (∃ d, x = "+incdir+" ++ d ∨ x = "-CFLAGS -I" ++ d)
    ∨ (∃ f ∈ files, x = f.name)
    ∨ x = ""
    ∨ x = "--top-module " ++ toplevel
    ∨ (pyLower (pyStrOfOptStr exe) ≠ "false" ∧ x = "--exe")
    ∨ (∃ r, x = "-G" ++ r)
    ∨ (∃ r, x = "-D" ++ r) := by
  simp only [vcLines, List.append_assoc, List.mem_append] at hx
  rcases hx with h | h | h | h | h | h | h | h | h | h | h
  · exact Or.inl (by simpa using h)
  · split at h
    · rename_i hcs
      exact Or.inr (Or.inl ⟨hcs, by simpa using h⟩)
    · simp at h
  · match libs with
    | none => simp at h
    | some ls =>
        simp only [List.mem_map] at h
        obtain ⟨lib, _, hxe⟩ := h
        exact Or.inr (Or.inr (Or.inl ⟨lib, hxe.symm⟩))
  · simp only [List.mem_flatMap] at h
    obtain ⟨d, _, h2⟩ := h
    refine Or.inr (Or.inr (Or.inr (Or.inl ⟨d, ?_⟩)))
    simpa using h2
  · split at h
    · simp at h
    · have hsub := (partition_names_sub files).1 h
      simp only [List.mem_map] at hsub
      obtain ⟨f, hf, hname⟩ := hsub
      exact Or.inr (Or.inr (Or.inr (Or.inr (Or.inl ⟨f, hf, hname.symm⟩))))
  · split at h
    · exact Or.inr (Or.inr (Or.inr (Or.inr (Or.inr (Or.inl (by simpa using h))))))
    · have hsub := (partition_names_sub files).2.1 h
      simp only [List.mem_map] at hsub
      obtain ⟨f, hf, hname⟩ := hsub
      exact Or.inr (Or.inr (Or.inr (Or.inr (Or.inl ⟨f, hf, hname.symm⟩))))
  · exact Or.inr (Or.inr (Or.inr (Or.inr (Or.inr (Or.inr (Or.inl (by simpa using h)))))))
  · split at h
    · simp at h
    · rename_i hne
      exact Or.inr (Or.inr (Or.inr (Or.inr (Or.inr (Or.inr (Or.inr (Or.inl
        ⟨hne, by simpa using h⟩)))))))
  · split at h
    · exact Or.inr (Or.inr (Or.inr (Or.inr (Or.inr (Or.inl (by simpa using h))))))
    · have hsub := (partition_names_sub files).2.2 h
      simp only [List.mem_map] at hsub
      obtain ⟨f, hf, hname⟩ := hsub
      exact Or.inr (Or.inr (Or.inr (Or.inr (Or.inl ⟨f, hf, hname.symm⟩))))
  · simp only [List.mem_map] at h
    obtain ⟨kv, _, hxe⟩ := h
    exact Or.inr (Or.inr (Or.inr (Or.inr (Or.inr (Or.inr (Or.inr (Or.inr (Or.inl
      ⟨_, hxe.symm⟩))))))))
  · simp only [List.mem_map] at h
    obtain ⟨kv, _, hxe⟩ := h
    exact Or.inr (Or.inr (Or.inr (Or.inr (Or.inr (Or.inr (Or.inr (Or.inr (Or.inr
      ⟨_, hxe.symm⟩))))))))

/-- For a legal, non-`cc`/`sc` mode the `.vc` file contains no mode
line, provided no source file is named like a double-dash flag. -/
theorem dashdash_notin_vcLines (m : String) (hm : m ∈ Verilator.modes)
    (hcs : m ∉ (["cc", "sc"] : List String)) (exe : Option String)
    (libs : Option (List String)) (files : List SourceFile) (incdirs : List String)
    (toplevel : String) (vp vd : List (String × Value))
    (hfiles : ∀ f ∈ files, ∀ r, f.name ≠ "--" ++ r) :
    "--" ++ m ∉ vcLines m exe libs files incdirs toplevel vp vd := by
  simp only [Verilator.modes, List.mem_cons, List.not_mem_nil, or_false] at hm
  rcases hm with rfl | rfl | rfl | rfl | rfl | rfl | rfl | rfl
  all_goals
    first
    | exact absurd (by decide) hcs
    | (intro hmem
       rcases mem_vcLines _ _ _ _ _ _ _ _ _ hmem with
         h | ⟨hc, h⟩ | ⟨lib, h⟩ | ⟨d, h | h⟩ | ⟨f, hf, h⟩ | h | h | ⟨_, h⟩ | ⟨r, h⟩ | ⟨r, h⟩
       · exact absurd h (by decide)
       · exact absurd hc (by decide)
       · exact ne_append_of_data "-LDFLAGS " lib _ 1 (by decide) (by decide) h.symm
       · exact ne_append_of_data "+incdir+" d _ 0 (by decide) (by decide) h.symm
       · exact ne_append_of_data "-CFLAGS -I" d _ 1 (by decide) (by decide) h.symm
       · exact hfiles f hf _ h.symm
       · exact absurd h (by decide)
       · exact ne_append_of_data "--top-module " toplevel _ 2 (by decide) (by decide) h.symm
       · exact absurd h (by decide)
       · exact ne_append_of_data "-G" r _ 1 (by decide) (by decide) h.symm
       · exact ne_append_of_data "-D" r _ 1 (by decide) (by decide) h.symm)

/-- When the stringified `exe` option lowers to `false`, no `--exe` line
is in the `.vc` file (again assuming no flag-like file names). -/
theorem exe_notin_vcLines (m : String) (exe : Option String)
    (hfalse : pyLower (pyStrOfOptStr exe) = "false") (libs : Option (List String))
    (files : List SourceFile) (incdirs : List String) (toplevel : String)
    (vp vd : List (String × Value))
    (hfiles : ∀ f ∈ files, ∀ r, f.name ≠ "--" ++ r) :
    "--exe" ∉ vcLines m exe libs files incdirs toplevel vp vd := by
  intro hmem
  rcases mem_vcLines _ _ _ _ _ _ _ _ _ hmem with
    h | ⟨hc, h⟩ | ⟨lib, h⟩ | ⟨d, h | h⟩ | ⟨f, hf, h⟩ | h | h | ⟨hne, _⟩ | ⟨r, h⟩ | ⟨r, h⟩
  · exact absurd h (by decide)
  · simp only [List.mem_cons, List.not_mem_nil, or_false] at hc
    rcases hc with rfl | rfl <;> exact absurd h (by decide)
  · exact ne_append_of_data "-LDFLAGS " lib _ 1 (by decide) (by decide) h.symm
  · exact ne_append_of_data "+incdir+" d _ 0 (by decide) (by decide) h.symm
  · exact ne_append_of_data "-CFLAGS -I" d _ 1 (by decide) (by decide) h.symm
  · exact hfiles f hf "exe" (h.symm.trans (by decide))
  · exact absurd h (by decide)
  · exact ne_append_of_data "--top-module " toplevel _ 2 (by decide) (by decide) h.symm
  · exact absurd hfalse hne
  · exact ne_append_of_data "-G" r _ 1 (by decide) (by decide) h.symm
  · exact ne_append_of_data "-D" r _ 1 (by decide) (by decide) h.symm

/-- The mode line is present for `cc` and `sc`. -/
theorem mem_vcLines_mode (m : String) (hm : m ∈ (["cc", "sc"] : List String))
    (exe : Option String) (libs : Option (List String)) (files : List SourceFile)
    (incdirs : List String) (toplevel : String) (vp vd : List (String × Value)) :
    "--" ++ m ∈ vcLines m exe libs files incdirs toplevel vp vd := by
  unfold vcLines
  rw [if_pos hm]
  simp [List.mem_append]

/-- The `--exe` line is present whenever the stringified `exe` option
does not lower to `false`. -/
theorem mem_vcLines_exe (m : String) (exe : Option String)
    (hne : pyLower (pyStrOfOptStr exe) ≠ "false") (libs : Option (List String))
    (files : List SourceFile) (incdirs : List String) (toplevel : String)
    (vp vd : List (String × Value)) :
    "--exe" ∈ vcLines m exe libs files incdirs toplevel vp vd := by
  unfold vcLines
  rw [if_neg hne]
  simp [List.mem_append]

/-! ## Claim theorems -/

/-- Claim C1 (code evaluated at the failing input): with two PDC files
the generated project script contains an add-source line for BOTH of
them (the `pdc_file` tracking variable is dead code), even though the
logged warning promises that only the first will be used.  With zero PDC
files no constraint directive appears and no error occurs. -/
theorem radiant_pdc_all_files_referenced_eval :
    (Radiant.configure_main "top" "p" "t"
        [⟨"a.pdc", "PDC", ""⟩, ⟨"b.pdc", "PDC", ""⟩] [] [] [] []).projectLines
      = ["#Generated by Edalize",
         "prj_create -name top -impl \"impl\" -dev p",
         "prj_set_impl_opt top t",
         "prj_add_source a.pdc -work work",
         "prj_add_source b.pdc -work work",
         "prj_save", "prj_close"]
    ∧ (Radiant.configure_main "top" "p" "t"
        [⟨"a.pdc", "PDC", ""⟩, ⟨"b.pdc", "PDC", ""⟩] [] [] [] []).warnings
      = ["Multiple PDC files detected. Only the first one will be used"]
    ∧ (Radiant.configure_main "top" "p" "t" [] [] [] [] []).projectLines
      = ["#Generated by Edalize",
         "prj_create -name top -impl \"impl\" -dev p",
         "prj_set_impl_opt top t",
         "prj_save", "prj_close"] := by
  refine ⟨by decide, by decide, by decide⟩

/-- Claim C2, counterexample: configuring with the illegal mode `foo`
does raise the fatal error, but the filesystem is NOT left untouched:
the `.vc` command file has already been created and holds the
module-directory line. -/
theorem verilator_illegal_mode_filesystem_cex :
    (Verilator.write_config_files "test" fooModeOpts [] [] "top" [] []).files
      = [("test.vc", ["--Mdir ."])]
    ∧ (Verilator.write_config_files "test" fooModeOpts [] [] "top" [] []).files ≠ []
    ∧ (Verilator.write_config_files "test" fooModeOpts [] [] "top" [] []).error
      = some "Illegal verilator mode foo. Allowed values are binary, cc, dpi-hdr-only, lint-only, none, preprocess-only, sc, xml-only" := by
  refine ⟨by decide, by decide, by decide⟩

/-- Claim C2 (amended): for every option set with an illegal mode,
configuration raises a fatal error naming the illegal value and the
allowed set; the build file (`Makefile`) and the variables file
(`config.mk`) are never created, but the `.vc` command file has already
been written with exactly the module-directory line. -/
theorem verilator_illegal_mode_fatal
    (name : String) (o : VerilatorOpts) (files : List SourceFile) (incdirs : List String)
    (toplevel : String) (vp vd : List (String × Value)) (m : String)
    (hm : o.mode = some m) (hbad : m ∉ Verilator.modes) :
    (Verilator.write_config_files name o files incdirs toplevel vp vd).error
      = some ("Illegal verilator mode " ++ (m ++ (". Allowed values are "
          ++ "binary, cc, dpi-hdr-only, lint-only, none, preprocess-only, sc, xml-only")))
    ∧ (Verilator.write_config_files name o files incdirs toplevel vp vd).files
      = [(name ++ ".vc", ["--Mdir ."])] := by
  have hmsg : String.intercalate ", " Verilator.modes
      = "binary, cc, dpi-hdr-only, lint-only, none, preprocess-only, sc, xml-only" := by
    decide
  constructor
  · simp only [Verilator.write_config_files, hm]
    rw [if_neg hbad]
    simp [illegalModeMsg, hmsg]
  · simp only [Verilator.write_config_files, hm]
    rw [if_neg hbad]

/-- Witness for C2's amended theorem at a concrete illegal mode. -/
theorem verilator_illegal_mode_fatal_witness :
    (Verilator.write_config_files "test" fooModeOpts [] [] "top" [] []).error
      = some ("Illegal verilator mode " ++ ("foo" ++ (". Allowed values are "
          ++ "binary, cc, dpi-hdr-only, lint-only, none, preprocess-only, sc, xml-only")))
    ∧ (Verilator.write_config_files "test" fooModeOpts [] [] "top" [] []).files
      = [("test" ++ ".vc", ["--Mdir ."])] :=
  verilator_illegal_mode_fatal "test" fooModeOpts [] [] "top" [] [] "foo" rfl (by decide)

/-- Claim C3, counterexample: a file of unrecognized type fed to the
Verilator backend produces NO warning at all (the partition loop logs
nothing) and contributes no line, refuting the claim that every backend
logs a warning identifying an unrecognized file. -/
theorem verilator_unknown_type_silent_cex :
    (Verilator.write_config_files "t" defaultVOpts
        [⟨"foo.xyz", "unknownType", ""⟩] [] "top" [] []).warnings = []
    ∧ vcContent (Verilator.write_config_files "t" defaultVOpts
        [⟨"foo.xyz", "unknownType", ""⟩] [] "top" [] [])
      = ["--Mdir .", "--cc", "", "--top-module top", "--exe", ""] := by
  refine ⟨by decide, by decide⟩

/-- Claim C3 (amended): classification is a pure total function of the
declared file data, and in the Radiant backend an unrecognized type
yields the empty directive plus a warning naming the file and its type,
while the inert types `user`/`LPF` map to empty silently; the Verilator
backend, however, ignores unrecognized types silently: they contribute
to no bucket and the configuration logs no warning at all. -/
theorem classification_policy_divergence :
    (∀ f : SourceFile,
        get_file_type f ∉ (["verilogSource", "systemVerilogSource", "vhdlSource",
          "PDC", "SDC", "tclSource", "user", "LPF"] : List String) →
        Radiant.src_file_filter f
          = ("", [f.name ++ (" has unknown file type \x27" ++ (f.file_type ++ "\x27"))]))
    ∧ (∀ f : SourceFile, get_file_type f ∈ (["user", "LPF"] : List String) →
        Radiant.src_file_filter f = ("", []))
    ∧ (∀ (f : SourceFile) (rest : List SourceFile),
        pyStartswith f.file_type "systemVerilogSource" = false →
        pyStartswith f.file_type "verilogSource" = false →
        f.file_type ∉ (["cppSource", "systemCSource", "cSource", "vlt"] : List String) →
        partitionFiles (f :: rest) = partitionFiles rest)
    ∧ (∀ (name : String) (o : VerilatorOpts) (files : List SourceFile)
          (incdirs : List String) (toplevel : String) (vp vd : List (String × Value)),
        (Verilator.write_config_files name o files incdirs toplevel vp vd).warnings = []) := by
  refine ⟨?_, ?_, ?_, ?_⟩
  · intro f h
    simp only [List.mem_cons, List.not_mem_nil, or_false, not_or, get_file_type] at h
    obtain ⟨h1, h2, h3, h4, h5, h6, h7, h8⟩ := h
    simp [Radiant.src_file_filter, get_file_type, h1, h2, h3, h4, h5, h6, h7, h8]
  · intro f h
    simp only [List.mem_cons, List.not_mem_nil, or_false, get_file_type] at h
    rcases h with h | h <;> simp [Radiant.src_file_filter, get_file_type, h]
  · intro f rest h1 h2 h3
    simp only [List.mem_cons, List.not_mem_nil, or_false, not_or] at h3
    obtain ⟨h4, h5, h6, h7⟩ := h3
    simp [partitionFiles, h1, h2, h4, h5, h6, h7]
  · intro name o files incdirs toplevel vp vd
    simp only [Verilator.write_config_files]
    split <;> rfl

/-- Witness for C3's amended theorem at a concrete unknown-typed file. -/
theorem classification_policy_divergence_witness :
    Radiant.src_file_filter ⟨"foo.xyz", "unknownType", ""⟩
      = ("", ["foo.xyz has unknown file type \x27unknownType\x27"])
    ∧ partitionFiles [⟨"foo.xyz", "unknownType", ""⟩] = partitionFiles [] :=
  ⟨classification_policy_divergence.1 ⟨"foo.xyz", "unknownType", ""⟩ (by decide),
   classification_policy_divergence.2.2.1 ⟨"foo.xyz", "unknownType", ""⟩ [] (by decide)
     (by decide) (by decide)⟩

/-- Claim C5: scenario A.  For the single verilog file `top.v`, toplevel
`top` and part `LIFCL-40-9BG400C`, the project script is exactly the
create line (with project name and device), the top-level line, one
add-source line for `top.v` suffixed `-work work`, and the save/close
lines; no include-path, parameter or define directive appears. -/
theorem radiant_scenario_a :
    (Radiant.configure_main "top" "LIFCL-40-9BG400C" "top"
        [⟨"top.v", "verilogSource", ""⟩] [] [] [] []).projectLines
      = ["#Generated by Edalize",
         "prj_create -name top -impl \"impl\" -dev LIFCL-40-9BG400C",
         "prj_set_impl_opt top top",
         "prj_add_source top.v -work work",
         "prj_save", "prj_close"] := by
  decide

/-- Claim C7, counterexample: with mode `lint-only` AND `gen-xml` set to
`True`, build invokes the xml-only phony target in addition to
lint-only, so "build invokes only the lint-only phony target" fails for
this option set. -/
theorem verilator_lint_only_extra_build_cex :
    (Verilator.build_main lintXmlOpts).procs
      = [("make", ["lint-only"]), ("make", ["xml-only"])]
    ∧ (Verilator.build_main lintXmlOpts).procs ≠ [("make", ["lint-only"])] := by
  refine ⟨by decide, by decide⟩

/-- Claim C7 (amended): `run` assembles its arguments as all plusargs
(`+key=value`), then all command-line args (`--key=value`), then the
`run_options` list verbatim; for the four non-executable modes `run`
spawns no process; and for mode `lint-only` build invokes only the
lint-only phony target provided none of the three `gen-*` options is set
to true. -/
theorem verilator_run_args_and_build_gating (o : VerilatorOpts) (toplevel : String)
    (plusarg cmdlinearg : List (String × Value)) :
    (Verilator.run_main o toplevel plusarg cmdlinearg).args
      = plusarg.map (fun kv => "+" ++ (kv.1 ++ "=" ++ param_value_str kv.2 ""))
        ++ cmdlinearg.map (fun kv => "--" ++ (kv.1 ++ "=" ++ param_value_str kv.2 ""))
        ++ (match o.run_options with | none => [] | some ls => ls)
    ∧ (∀ m, o.mode = some m →
        m ∈ (["dpi-hdr-only", "lint-only", "preprocess-only", "xml-only"] : List String) →
        (Verilator.run_main o toplevel plusarg cmdlinearg).procs = [])
    ∧ (o.mode = some "lint-only" →
        pyLower (pyStrOfOptBool o.gen_xml) ≠ "true" →
        pyLower (pyStrOfOptBool o.gen_dpi_hdr) ≠ "true" →
        pyLower (pyStrOfOptBool o.gen_preprocess) ≠ "true" →
        (Verilator.build_main o).procs = [("make", ["lint-only"])]) := by
  refine ⟨?_, ?_, ?_⟩
  · simp only [Verilator.run_main, foldl_append_map, List.nil_append, List.append_assoc]
    split <;> rfl
  · intro m hm hmem
    simp only [Verilator.run_main, hm]
    rw [if_pos hmem]
  · intro h hx hd hp
    simp only [Verilator.build_main, h]
    rw [if_pos (by decide : ("lint-only" : String) ∈ Verilator.modes)]
    rw [if_pos (by decide : ("lint-only" : String) ∈
      (["binary", "dpi-hdr-only", "lint-only", "preprocess-only", "xml-only"] : List String))]
    rw [if_neg (by decide : ¬("lint-only" : String) = "none")]
    rw [if_neg hx, if_neg hd, if_neg hp]
    rfl

/-- Witness for C7's amended theorem at concrete inputs. -/
theorem verilator_run_args_and_build_gating_witness :
    (Verilator.run_main lintOnlyOpts "top" [] []).procs = []
    ∧ (Verilator.build_main lintOnlyOpts).procs = [("make", ["lint-only"])] :=
  ⟨(verilator_run_args_and_build_gating lintOnlyOpts "top" [] []).2.1
      "lint-only" rfl (by decide),
   (verilator_run_args_and_build_gating lintOnlyOpts "top" [] []).2.2
      rfl (by decide) (by decide) (by decide)⟩

/-- Claim C9: writing an `EdaCommands` on which no default target has
been designated raises immediately, for every command list (the source
hits the unset `default_target` attribute before emitting any rule and
before any external process could run). -/
theorem eda_commands_write_missing_default (cmds : List EdaCommand) :
    EdaCommands.write ⟨cmds, none⟩
      = Except.error
          "AttributeError: \x27EdaCommands\x27 object has no attribute \x27default_target\x27" :=
  rfl

/-- Witness for C9 at a concrete command list. -/
theorem eda_commands_write_missing_default_witness :
    EdaCommands.write ⟨[⟨["make"], ["out"], [], []⟩], none⟩
      = Except.error
          "AttributeError: \x27EdaCommands\x27 object has no attribute \x27default_target\x27" :=
  eda_commands_write_missing_default [⟨["make"], ["out"], [], []⟩]

/-- Claim C10: each of configure, build and run, given tool options
without the `mode` key, inserts `mode = "cc"` into the (shared) options
mapping, and the inserted key is still present when a later pass re-uses
the returned mapping. -/
theorem verilator_mode_default_persists
    (name : String) (o : VerilatorOpts) (files : List SourceFile) (incdirs : List String)
    (toplevel : String) (vp vd plusarg cmdlinearg : List (String × Value))
    (h : o.mode = none) :
    (Verilator.write_config_files name o files incdirs toplevel vp vd).opts.mode = some "cc"
    ∧ (Verilator.build_main o).opts.mode = some "cc"
    ∧ (Verilator.run_main o toplevel plusarg cmdlinearg).opts.mode = some "cc"
    ∧ (Verilator.build_main
        (Verilator.write_config_files name o files incdirs toplevel vp vd).opts).opts.mode
      = some "cc" := by
  have hw : (Verilator.write_config_files name o files incdirs toplevel vp vd).opts
      = setMode o "cc" := by
    simp only [Verilator.write_config_files, h]
    split <;> rfl
  have hb : ∀ o2 : VerilatorOpts, (Verilator.build_main o2).opts
      = setMode o2 (match o2.mode with | none => "cc" | some mm => mm) := by
    intro o2
    simp only [Verilator.build_main]
    split <;> rfl
  have hr : (Verilator.run_main o toplevel plusarg cmdlinearg).opts = setMode o "cc" := by
    simp only [Verilator.run_main, h]
    split <;> rfl
  refine ⟨by rw [hw]; rfl, ?_, by rw [hr]; rfl, ?_⟩
  · rw [hb o, h]
    rfl
  · rw [hb, hw]
    rfl

/-- Witness for C10 at concrete inputs. -/
theorem verilator_mode_default_persists_witness :
    (Verilator.write_config_files "n" defaultVOpts [] [] "t" [] []).opts.mode = some "cc"
    ∧ (Verilator.build_main defaultVOpts).opts.mode = some "cc"
    ∧ (Verilator.run_main defaultVOpts "t" [] []).opts.mode = some "cc"
    ∧ (Verilator.build_main
        (Verilator.write_config_files "n" defaultVOpts [] [] "t" [] []).opts).opts.mode
      = some "cc" :=
  verilator_mode_default_persists "n" defaultVOpts [] [] "t" [] [] [] [] rfl

/-- Claim C6: in the `.vc` command file, an unset mode defaults to `cc`
and a `--cc` line is written; the mode line `--<mode>` is present
exactly for `cc` and `sc` (for the other six legal modes no such line
appears, provided no source file is named like a double-dash flag); and
the `--exe` line is written iff the stringified `exe` option is not
`false` case-insensitively — in particular it is present when `exe` is
absent (`str(None).lower() = "none"`). -/
theorem verilator_vc_mode_and_exe_lines
    (name : String) (o : VerilatorOpts) (files : List SourceFile) (incdirs : List String)
    (toplevel : String) (vp vd : List (String × Value)) :
    (o.mode = none →
      (Verilator.write_config_files name o files incdirs toplevel vp vd).error = none
      ∧ vcContent (Verilator.write_config_files name o files incdirs toplevel vp vd)
          = vcLines "cc" o.exe o.libs files incdirs toplevel vp vd
      ∧ "--cc" ∈ vcContent (Verilator.write_config_files name o files incdirs toplevel vp vd))
    ∧ (∀ m, m ∈ (["cc", "sc"] : List String) →
        "--" ++ m ∈ vcLines m o.exe o.libs files incdirs toplevel vp vd)
    ∧ (∀ m, m ∈ Verilator.modes → m ∉ (["cc", "sc"] : List String) →
        (∀ f ∈ files, ∀ r, f.name ≠ "--" ++ r) →
        "--" ++ m ∉ vcLines m o.exe o.libs files incdirs toplevel vp vd)
    ∧ (∀ m, pyLower (pyStrOfOptStr o.exe) ≠ "false" →
        "--exe" ∈ vcLines m o.exe o.libs files incdirs toplevel vp vd)
    ∧ (∀ m, pyLower (pyStrOfOptStr o.exe) = "false" →
        (∀ f ∈ files, ∀ r, f.name ≠ "--" ++ r) →
        "--exe" ∉ vcLines m o.exe o.libs files incdirs toplevel vp vd) := by
  refine ⟨?_, ?_, ?_, ?_, ?_⟩
  · intro h
    refine ⟨?_, ?_, ?_⟩
    · simp only [Verilator.write_config_files, h]
      rw [if_pos (by decide : ("cc" : String) ∈ Verilator.modes)]
    · simp only [Verilator.write_config_files, h]
      rw [if_pos (by decide : ("cc" : String) ∈ Verilator.modes)]
      rfl
    · simp only [Verilator.write_config_files, h]
      rw [if_pos (by decide : ("cc" : String) ∈ Verilator.modes)]
      exact (by decide : ("--" ++ "cc" : String) = "--cc") ▸
        mem_vcLines_mode "cc" (by decide) o.exe o.libs files incdirs toplevel vp vd
  · intro m hm
    exact mem_vcLines_mode m hm o.exe o.libs files incdirs toplevel vp vd
  · intro m hm hcs hfiles
    exact dashdash_notin_vcLines m hm hcs o.exe o.libs files incdirs toplevel vp vd hfiles
  · intro m hne
    exact mem_vcLines_exe m o.exe hne o.libs files incdirs toplevel vp vd
  · intro m hf hfiles
    exact exe_notin_vcLines m o.exe hf o.libs files incdirs toplevel vp vd hfiles

/-- Witness for C6 at concrete inputs. -/
theorem verilator_vc_mode_and_exe_lines_witness :
    ((Verilator.write_config_files "n" defaultVOpts [] [] "top" [] []).error = none
      ∧ vcContent (Verilator.write_config_files "n" defaultVOpts [] [] "top" [] [])
          = vcLines "cc" none none [] [] "top" [] []
      ∧ "--cc" ∈ vcContent (Verilator.write_config_files "n" defaultVOpts [] [] "top" [] []))
    ∧ "--" ++ "sc" ∈ vcLines "sc" none none [] [] "top" [] []
    ∧ "--" ++ "binary" ∉ vcLines "binary" none none [] [] "top" [] []
    ∧ "--exe" ∈ vcLines "cc" none none [] [] "top" [] []
    ∧ "--exe" ∉ vcLines "cc" (some "False") none [] [] "top" [] [] :=
  ⟨(verilator_vc_mode_and_exe_lines "n" defaultVOpts [] [] "top" [] []).1 rfl,
   (verilator_vc_mode_and_exe_lines "n" defaultVOpts [] [] "top" [] []).2.1 "sc" (by decide),
   (verilator_vc_mode_and_exe_lines "n" defaultVOpts [] [] "top" [] []).2.2.1 "binary"
     (by decide) (by decide) (by simp),
   (verilator_vc_mode_and_exe_lines "n" defaultVOpts [] [] "top" [] []).2.2.2.1 "cc"
     (by decide),
   (verilator_vc_mode_and_exe_lines "n" exeFalseOpts [] [] "top" [] []).2.2.2.2 "cc"
     (by decide) (by simp)⟩

/-- Claim C8: writing a build file whose default target has been
designated and re-parsing the target named on its `all:` line yields
exactly that target, for every command list and every (non-empty,
newline-free, i.e. representable as a make target) default target. -/
theorem eda_commands_roundtrip (cmds : List EdaCommand) (t : String)
    (hne : t ≠ "") (_hnl : ∀ c ∈ t.data, c ≠ '\n') :
    ∃ lines, EdaCommands.write ⟨cmds, some t⟩ = Except.ok lines
      ∧ parseAllTarget lines = some t := by
  have hw : EdaCommands.write ⟨cmds, some t⟩
      = Except.ok (["#Auto generated by Edalize", "", "all: " ++ t]
          ++ cmds.flatMap commandLines) := by
    simp [EdaCommands.write, hne]
  refine ⟨_, hw, ?_⟩
  have key : ∀ (l : List String) (a : String), ¬(a.data.take 5 = "all: ".data) →
      parseAllTarget (a :: l) = parseAllTarget l := by
    intro l a ha
    simp [parseAllTarget, List.findSome?_cons, ha]
  have key2 : ∀ (l : List String) (a : String), a.data.take 5 = "all: ".data →
      parseAllTarget (a :: l) = some (String.mk (a.data.drop 5)) := by
    intro l a ha
    simp [parseAllTarget, List.findSome?_cons, ha]
  have h5 : (5 : Nat) = ("all: ".data).length := by decide
  have h3 : ("all: " ++ t).data.take 5 = "all: ".data := by
    rw [String.data_append, h5, List.take_left]
  have h4 : ("all: " ++ t).data.drop 5 = t.data := by
    rw [String.data_append, h5, List.drop_left]
  show parseAllTarget (["#Auto generated by Edalize", "", "all: " ++ t]
      ++ cmds.flatMap commandLines) = some t
  rw [List.cons_append, List.cons_append, List.cons_append, List.nil_append]
  rw [key _ _ (by decide), key _ _ (by decide), key2 _ _ h3, h4]

/-- Witness for C8 at a concrete command list and target. -/
theorem eda_commands_roundtrip_witness :
    ∃ lines,
      EdaCommands.write ⟨[⟨["make", "x"], ["out"], ["in"], []⟩], some "build"⟩
        = Except.ok lines
      ∧ parseAllTarget lines = some "build" :=
  eda_commands_roundtrip [⟨["make", "x"], ["out"], ["in"], []⟩] "build"
    (by decide) (by decide)

/-- No line contributed by a source file to the Radiant project script
matches a directive prefix whose characters differ from
`prj_add_source ` at index 4 and from `source ` at index 0. -/
theorem countP_src_zero (files : List SourceFile) (p : String)
    (hp0lt : 0 < p.data.length) (hp4lt : 4 < p.data.length)
    (hp0 : p.data[0]? ≠ some 's') (hp4 : p.data[4]? ≠ some 'a') :
    List.countP (fun l => pyStartswith l p)
      (files.filterMap (fun f =>
        if (Radiant.src_file_filter f).1 = "" then none
        else some (Radiant.src_file_filter f).1)) = 0 := by
  apply List.countP_eq_zero.mpr
  intro a ha
  obtain ⟨f, hf, hsome⟩ := List.mem_filterMap.mp ha
  by_cases hz : (Radiant.src_file_filter f).1 = ""
  · rw [if_pos hz] at hsome
    exact absurd hsome (by simp)
  · rw [if_neg hz] at hsome
    have ha2 : (Radiant.src_file_filter f).1 = a := Option.some.inj hsome
    rcases src_file_filter_shape f with h0 | ⟨r, hr⟩ | ⟨r, hr⟩
    · exact absurd h0 hz
    · have hfalse : pyStartswith ("prj_add_source " ++ r) p = false :=
        pyStartswith_append_false p "prj_add_source " r 4 hp4lt (by decide)
          (fun hc => hp4 (hc.trans (by decide)))
      rw [← ha2, hr]
      simp [hfalse]
    · have hfalse : pyStartswith ("source " ++ r) p = false :=
        pyStartswith_append_false p "source " r 0 hp0lt (by decide)
          (fun hc => hp0 (hc.trans (by decide)))
      rw [← ha2, hr]
      simp [hfalse]

/-- Claim C4: the project script carries one `HDL_PARAM` directive line
per non-empty mapping among `generic` and `vlogparam` (so none when both
are empty), one `VERILOG_DIRECTIVES` line iff `vlogdefine` is non-empty,
and when both `generic` and `vlogparam` are non-empty their two
`HDL_PARAM` lines sit back-to-back, generic first, undeduplicated. -/
theorem radiant_param_define_directive_lines
    (name part toplevel : String) (files : List SourceFile) (incdirs : List String)
    (generic vlogparam vlogdefine : List (String × Value)) :
    List.countP (fun l => pyStartswith l hdlParamPfx)
        (Radiant.configure_main name part toplevel files incdirs generic vlogparam
          vlogdefine).projectLines
      = (if generic = [] then 0 else 1) + (if vlogparam = [] then 0 else 1)
    ∧ List.countP (fun l => pyStartswith l verilogDirectivesPfx)
        (Radiant.configure_main name part toplevel files incdirs generic vlogparam
          vlogdefine).projectLines
      = (if vlogdefine = [] then 0 else 1)
    ∧ (generic ≠ [] → vlogparam ≠ [] →
        ∃ i,
          ((Radiant.configure_main name part toplevel files incdirs generic vlogparam
            vlogdefine).projectLines)[i]? = some (radiantGenericLine generic)
          ∧ ((Radiant.configure_main name part toplevel files incdirs generic vlogparam
              vlogdefine).projectLines)[i + 1]? = some (radiantVlogparamLine vlogparam)
          ∧ pyStartswith (radiantGenericLine generic) hdlParamPfx = true
          ∧ pyStartswith (radiantVlogparamLine vlogparam) hdlParamPfx = true) := by
  have e_hdr_h : pyStartswith "#Generated by Edalize" hdlParamPfx = false := by decide
  have e_hdr_d : pyStartswith "#Generated by Edalize" verilogDirectivesPfx = false := by
    decide
  have e_create_h : ∀ s, pyStartswith ("prj_create -name " ++ s) hdlParamPfx = false :=
    fun s => pyStartswith_append_false _ _ s 4 (by decide) (by decide) (by decide)
  have e_create_d : ∀ s,
      pyStartswith ("prj_create -name " ++ s) verilogDirectivesPfx = false :=
    fun s => pyStartswith_append_false _ _ s 4 (by decide) (by decide) (by decide)
  have e_top_h : ∀ s, pyStartswith ("prj_set_impl_opt top " ++ s) hdlParamPfx = false :=
    fun s => pyStartswith_append_false _ _ s 17 (by decide) (by decide) (by decide)
  have e_top_d : ∀ s,
      pyStartswith ("prj_set_impl_opt top " ++ s) verilogDirectivesPfx = false :=
    fun s => pyStartswith_append_false _ _ s 17 (by decide) (by decide) (by decide)
  have e_inc_h : ∀ ss, pyStartswith (radiantIncdirLine ss) hdlParamPfx = false := by
    intro ss
    unfold radiantIncdirLine
    exact pyStartswith_append_false _ _ _ 17 (by decide) (by decide) (by decide)
  have e_inc_d : ∀ ss, pyStartswith (radiantIncdirLine ss) verilogDirectivesPfx = false := by
    intro ss
    unfold radiantIncdirLine
    exact pyStartswith_append_false _ _ _ 17 (by decide) (by decide) (by decide)
  have e_gen_h : ∀ g, pyStartswith (radiantGenericLine g) hdlParamPfx = true := by
    intro g
    unfold radiantGenericLine
    exact pyStartswith_append_true _ _ _ (by decide)
  have e_gen_d : ∀ g, pyStartswith (radiantGenericLine g) verilogDirectivesPfx = false := by
    intro g
    unfold radiantGenericLine
    exact pyStartswith_append_false _ _ _ 17 (by decide) (by decide) (by decide)
  have e_vp_h : ∀ v, pyStartswith (radiantVlogparamLine v) hdlParamPfx = true := by
    intro v
    unfold radiantVlogparamLine
    exact pyStartswith_append_true _ _ _ (by decide)
  have e_vp_d : ∀ v, pyStartswith (radiantVlogparamLine v) verilogDirectivesPfx = false := by
    intro v
    unfold radiantVlogparamLine
    exact pyStartswith_append_false _ _ _ 17 (by decide) (by decide) (by decide)
  have e_def_h : ∀ d, pyStartswith (radiantVlogdefineLine d) hdlParamPfx = false := by
    intro d
    unfold radiantVlogdefineLine
    exact pyStartswith_append_false _ _ _ 17 (by decide) (by decide) (by decide)
  have e_def_d : ∀ d, pyStartswith (radiantVlogdefineLine d) verilogDirectivesPfx = true := by
    intro d
    unfold radiantVlogdefineLine
    exact pyStartswith_append_true _ _ _ (by decide)
  have e_save_h : pyStartswith "prj_save" hdlParamPfx = false := by decide
  have e_save_d : pyStartswith "prj_save" verilogDirectivesPfx = false := by decide
  have e_close_h : pyStartswith "prj_close" hdlParamPfx = false := by decide
  have e_close_d : pyStartswith "prj_close" verilogDirectivesPfx = false := by decide
  refine ⟨?_, ?_, ?_⟩
  · simp only [Radiant.configure_main, List.countP_append]
    rw [countP_src_zero files hdlParamPfx (by decide) (by decide) (by decide) (by decide)]
    by_cases hi : incdirs = [] <;> by_cases hg : generic = [] <;>
      by_cases hv : vlogparam = [] <;> by_cases hd : vlogdefine = [] <;>
      simp [hi, hg, hv, hd, List.countP_cons, e_hdr_h, e_create_h, e_top_h, e_inc_h,
        e_gen_h, e_vp_h, e_def_h, e_save_h, e_close_h]
  · simp only [Radiant.configure_main, List.countP_append]
    rw [countP_src_zero files verilogDirectivesPfx (by decide) (by decide) (by decide)
      (by decide)]
    by_cases hi : incdirs = [] <;> by_cases hg : generic = [] <;>
      by_cases hv : vlogparam = [] <;> by_cases hd : vlogdefine = [] <;>
      simp [hi, hg, hv, hd, List.countP_cons, e_hdr_d, e_create_d, e_top_d, e_inc_d,
        e_gen_d, e_vp_d, e_def_d, e_save_d, e_close_d]
  · intro hg hv
    by_cases hi : incdirs = []
    · refine ⟨3, ?_, ?_, e_gen_h generic, e_vp_h vlogparam⟩
      · simp only [Radiant.configure_main]
        rw [if_pos hi, if_neg hg, if_neg hv]
        simp
      · simp only [Radiant.configure_main]
        rw [if_pos hi, if_neg hg, if_neg hv]
        simp
    · refine ⟨4, ?_, ?_, e_gen_h generic, e_vp_h vlogparam⟩
      · simp only [Radiant.configure_main]
        rw [if_neg hi, if_neg hg, if_neg hv]
        simp
      · simp only [Radiant.configure_main]
        rw [if_neg hi, if_neg hg, if_neg hv]
        simp

/-- Witness for C4's back-to-back conjunct at concrete mappings. -/
theorem radiant_param_define_directive_lines_witness :
    ∃ i,
      ((Radiant.configure_main "a" "p" "t" [] [] [("G", Value.int 1)]
        [("W", Value.int 8)] []).projectLines)[i]?
        = some (radiantGenericLine [("G", Value.int 1)])
      ∧ ((Radiant.configure_main "a" "p" "t" [] [] [("G", Value.int 1)]
          [("W", Value.int 8)] []).projectLines)[i + 1]?
        = some (radiantVlogparamLine [("W", Value.int 8)])
      ∧ pyStartswith (radiantGenericLine [("G", Value.int 1)]) hdlParamPfx = true
      ∧ pyStartswith (radiantVlogparamLine [("W", Value.int 8)]) hdlParamPfx = true :=
  (radiant_param_define_directive_lines "a" "p" "t" [] [] [("G", Value.int 1)]
    [("W", Value.int 8)] []).2.2 (by decide) (by decide)
